import Mathlib

/-
Verification of the configuration-resolution behavior of
MyERPAccountingSystem.

The repository consists of two near-identical modules
(src/frontend/src/config.js and src/unnamed/part_000), each of which
evaluates, at module-load time,

  export const API_URL = import.meta.env.VITE_API_URL || '<fallback>';
  console.log('API URL:', API_URL);
  export default API_URL;

differing only in the fallback URL literal.  We embed the JavaScript
values involved, the short-circuiting `||` operator, the resolution
expression itself as a small expression tree with an evaluator that can
in principle fail (to show that this one never does), and the module's
load-time behavior (resolved constant plus one console.log line).
-/

/-- A JavaScript value as it can appear as the environment override:
`undefined`, `null`, or a string. -/
inductive JSValue where
  | undef : JSValue
  | null : JSValue
  | str : String → JSValue
deriving DecidableEq, Repr

/-- JavaScript truthiness restricted to the values above: `undefined` and
`null` are falsy, a string is truthy exactly when it is non-empty. -/
def truthy : JSValue → Bool
  | JSValue.undef => false
  | JSValue.null => false
  | JSValue.str s => !s.isEmpty

/-- The JavaScript `||` operator on our values: returns the left operand
when it is truthy, the right operand otherwise. -/
def jsOr (a b : JSValue) : JSValue :=
  if truthy a then a else b

/-- How `console.log` displays one of our values: `undefined` and `null`
print as those words, a string prints verbatim. -/
def jsToDisplay : JSValue → String
  | JSValue.undef => "undefined"
  | JSValue.null => "null"
  | JSValue.str s => s

/-- The resolution expression computing `API_URL`, line 2 of both source
files, parameterized by the override value and the fallback literal:
`override || fallback`. -/
def resolveApiUrl (override : JSValue) (fallback : String) : JSValue :=
  jsOr override (JSValue.str fallback)

/-- The resolution expression of src/frontend/src/config.js line 2,
abstracted over its fallback literal. -/
def resolveApiUrl_configJs (override : JSValue) (fallback : String) : JSValue :=
  jsOr override (JSValue.str fallback)

/-- The resolution expression of src/unnamed/part_000 line 2, abstracted
over its fallback literal. -/
def resolveApiUrl_part000 (override : JSValue) (fallback : String) : JSValue :=
  jsOr override (JSValue.str fallback)

/-- The fallback literal of src/frontend/src/config.js. -/
def configJsFallback : String := "https://my-erp-backend-theta.vercel.app"

/-- The fallback literal of src/unnamed/part_000. -/
def part000Fallback : String := "https://my-erp-frontend-delta.vercel.app"

/-- The fragment of JavaScript expressions the source files use: string
literals, reads of `import.meta.env.<name>`, and `||`. -/
inductive Expr where
  | lit : String → Expr
  | envRead : String → Expr
  | orElse : Expr → Expr → Expr

/-- Evaluation of an expression against an environment object.  The
result type admits failure so that "this evaluation cannot fail" is a
statement and not a typing artifact; none of the three constructs can
actually error (reading a property of the env object yields `undefined`
when absent rather than throwing, and `||` short-circuits). -/
def evalExpr (env : String → JSValue) : Expr → Except String JSValue
  | Expr.lit s => Except.ok (JSValue.str s)
  | Expr.envRead n => Except.ok (env n)
  | Expr.orElse a b =>
      match evalExpr env a with
      | Except.error e => Except.error e
      | Except.ok va => if truthy va then Except.ok va else evalExpr env b

/-- The expression on line 2 of both source files as an expression tree:
`import.meta.env.VITE_API_URL || fallback`. -/
def configExpr (fallback : String) : Expr :=
  Expr.orElse (Expr.envRead "VITE_API_URL") (Expr.lit fallback)

/-- The state of one of the config modules after its load-time
initialization: the resolved constant and the lines written to the
console. -/
structure ConfigModule where
  API_URL : JSValue
  log : List String
deriving DecidableEq, Repr

/-- `console.log(label, v)`: the emitted line joins the two arguments
with a single space. -/
def consoleLogLine (label : String) (v : JSValue) : String :=
  label ++ " " ++ jsToDisplay v

/-- Load-time initialization common to both source files, parameterized
by the environment object and the fallback literal: resolve `API_URL`
(line 2) and emit the single `console.log` line (line 4). -/
def initConfigModule (env : String → JSValue) (fallback : String) : ConfigModule :=
  let u := resolveApiUrl (env "VITE_API_URL") fallback
  { API_URL := u, log := [consoleLogLine "API URL:" u] }

/-- Loading src/frontend/src/config.js. -/
def configJsModule (env : String → JSValue) : ConfigModule :=
  let u := resolveApiUrl_configJs (env "VITE_API_URL") configJsFallback
  { API_URL := u, log := [consoleLogLine "API URL:" u] }

/-- Loading src/unnamed/part_000. -/
def part000Module (env : String → JSValue) : ConfigModule :=
  let u := resolveApiUrl_part000 (env "VITE_API_URL") part000Fallback
  { API_URL := u, log := [consoleLogLine "API URL:" u] }

/-- The operations the rest of the program can perform on a loaded config
module: reading the named export `API_URL` or the default export.  The
source files define no other operation on the module. -/
inductive ModuleOp where
  | readNamed : ModuleOp
  | readDefault : ModuleOp

/-- Applying one operation: both exports read the resolved constant and
leave the module untouched. -/
def applyOp (m : ConfigModule) : ModuleOp → JSValue × ConfigModule
  | ModuleOp.readNamed => (m.API_URL, m)
  | ModuleOp.readDefault => (m.API_URL, m)

/-- Running a sequence of operations against the module, returning the
final module state. -/
def runOps (m : ConfigModule) : List ModuleOp → ConfigModule
  | [] => m
  | op :: ops => runOps (applyOp m op).2 ops

/-- One call of the resolution expression with the world (the environment
object) threaded explicitly, so that absence of hidden state mutation is
visible in the result: the expression contains no assignment, so the
world comes back as it went in. -/
def callResolveApiUrl (w : String → JSValue) (fallback : String) :
    JSValue × (String → JSValue) :=
  (resolveApiUrl (w "VITE_API_URL") fallback, w)

/- ------------------------------------------------------------------ -/
/- Helper lemmas                                                       -/
/- ------------------------------------------------------------------ -/

theorem empty_isEmpty : "".isEmpty = true := by decide

theorem isEmpty_false_of_ne (s : String) (h : s ≠ "") : s.isEmpty = false := by
  cases he : s.isEmpty with
  | false => rfl
  | true => exact absurd ((String.isEmpty_iff s).mp he) h

/- ------------------------------------------------------------------ -/
/- Theorems                                                            -/
/- ------------------------------------------------------------------ -/

/-- C1: for every override value that is `undefined`, `null`, or the
empty string, `resolveApiUrl` returns exactly the fallback literal. -/
theorem resolve_absent_returns_fallback (fallback : String) :
    resolveApiUrl JSValue.undef fallback = JSValue.str fallback ∧
    resolveApiUrl JSValue.null fallback = JSValue.str fallback ∧
    resolveApiUrl (JSValue.str "") fallback = JSValue.str fallback := by
  refine ⟨rfl, rfl, ?_⟩
  simp [resolveApiUrl, jsOr, truthy, empty_isEmpty]

/-- C2: for every non-empty override string `s`, `resolveApiUrl` returns
exactly `s` unchanged, regardless of the fallback value. -/
theorem resolve_nonempty_override_identity (s fallback : String)
    (h : s ≠ "") :
    resolveApiUrl (JSValue.str s) fallback = JSValue.str s := by
  simp [resolveApiUrl, jsOr, truthy, String.isEmpty_iff, h]

/-- Witness for C2 at the spec's Scenario 2 override. -/
theorem resolve_nonempty_override_identity_witness :
    resolveApiUrl (JSValue.str "https://staging.example.com") configJsFallback
      = JSValue.str "https://staging.example.com" :=
  resolve_nonempty_override_identity "https://staging.example.com"
    configJsFallback (by decide)

/-- C3: when the fallback literal is non-empty, the resolved value is a
string and is non-empty, for every override input. -/
theorem resolved_nonnull_nonempty (override : JSValue) (fallback : String)
    (hf : fallback ≠ "") :
    ∃ s : String, resolveApiUrl override fallback = JSValue.str s ∧ s ≠ "" := by
  cases override with
  | undef => exact ⟨fallback, rfl, hf⟩
  | null => exact ⟨fallback, rfl, hf⟩
  | str s =>
      by_cases hs : s = ""
      · subst hs
        exact ⟨fallback, by simp [resolveApiUrl, jsOr, truthy, empty_isEmpty], hf⟩
      · exact ⟨s, by
          simp [resolveApiUrl, jsOr, truthy, isEmpty_false_of_ne s hs], hs⟩

/-- Witness for C3 at override `null` and the config.js fallback. -/
theorem resolved_nonnull_nonempty_witness :
    ∃ s : String,
      resolveApiUrl JSValue.null configJsFallback = JSValue.str s ∧ s ≠ "" :=
  resolved_nonnull_nonempty JSValue.null configJsFallback (by decide)

/-- C4: module initialization emits exactly one log line, which is
literally `"API URL: "` followed by the resolved value, for every
override input. -/
theorem init_logs_exactly_once (env : String → JSValue) (fallback : String) :
    ∃ s : String,
      (initConfigModule env fallback).API_URL = JSValue.str s ∧
      (initConfigModule env fallback).log = ["API URL: " ++ s] := by
  cases h : env "VITE_API_URL" with
  | undef =>
      exact ⟨fallback, by
        simp [initConfigModule, resolveApiUrl, jsOr, truthy, h,
          consoleLogLine, jsToDisplay], by
        simp [initConfigModule, resolveApiUrl, jsOr, truthy, h,
          consoleLogLine, jsToDisplay]⟩
  | null =>
      exact ⟨fallback, by
        simp [initConfigModule, resolveApiUrl, jsOr, truthy, h,
          consoleLogLine, jsToDisplay], by
        simp [initConfigModule, resolveApiUrl, jsOr, truthy, h,
          consoleLogLine, jsToDisplay]⟩
  | str s =>
      by_cases hs : s = ""
      · subst hs
        exact ⟨fallback, by
          simp [initConfigModule, resolveApiUrl, jsOr, truthy, h,
            consoleLogLine, jsToDisplay, empty_isEmpty], by
          simp [initConfigModule, resolveApiUrl, jsOr, truthy, h,
            consoleLogLine, jsToDisplay, empty_isEmpty]⟩
      · exact ⟨s, by
          simp [initConfigModule, resolveApiUrl, jsOr, truthy, h,
            consoleLogLine, jsToDisplay, isEmpty_false_of_ne s hs], by
          simp [initConfigModule, resolveApiUrl, jsOr, truthy, h,
            consoleLogLine, jsToDisplay, isEmpty_false_of_ne s hs]⟩

/-- C5: the resolution expression is pure: calling it a second time on
the world produced by the first call yields the same result, and the
world is returned unchanged. -/
theorem resolveApiUrl_pure (w : String → JSValue) (fallback : String) :
    (callResolveApiUrl (callResolveApiUrl w fallback).2 fallback).1
        = (callResolveApiUrl w fallback).1 ∧
    (callResolveApiUrl w fallback).2 = w := by
  exact ⟨rfl, rfl⟩

/-- C6: evaluating the resolution expression never produces an error, and
a present non-empty (possibly malformed) override is passed through
unchanged. -/
theorem config_resolution_never_fails (env : String → JSValue)
    (fallback : String) :
    (∃ v : JSValue, evalExpr env (configExpr fallback) = Except.ok v) ∧
    (∀ s : String, env "VITE_API_URL" = JSValue.str s → s ≠ "" →
      evalExpr env (configExpr fallback) = Except.ok (JSValue.str s)) := by
  constructor
  · cases h : env "VITE_API_URL" with
    | undef => exact ⟨JSValue.str fallback, by simp [evalExpr, configExpr, h, truthy]⟩
    | null => exact ⟨JSValue.str fallback, by simp [evalExpr, configExpr, h, truthy]⟩
    | str s =>
        by_cases hs : s = ""
        · subst hs
          exact ⟨JSValue.str fallback, by
            simp [evalExpr, configExpr, h, truthy, empty_isEmpty]⟩
        · exact ⟨JSValue.str s, by
            simp [evalExpr, configExpr, h, truthy, isEmpty_false_of_ne s hs]⟩
  · intro s hs hne
    simp [evalExpr, configExpr, hs, truthy, String.isEmpty_iff, hne]

/-- Witness for C6 at a malformed override string. -/
theorem config_resolution_never_fails_witness :
    evalExpr (fun _ => JSValue.str "not a url") (configExpr configJsFallback)
      = Except.ok (JSValue.str "not a url") :=
  (config_resolution_never_fails (fun _ => JSValue.str "not a url")
      configJsFallback).2 "not a url" rfl (by decide)

/-- C7: with the override absent, loading src/frontend/src/config.js
resolves `API_URL` to exactly its fallback literal. -/
theorem scenario1_configJs_default :
    (configJsModule (fun _ => JSValue.undef)).API_URL
      = JSValue.str "https://my-erp-backend-theta.vercel.app" := by
  rfl

/-- C8: the two source files implement identical resolution behavior once
each is abstracted over its fallback literal, and they differ in that
literal. -/
theorem two_files_same_resolution :
    (∀ (override : JSValue) (fallback : String),
        resolveApiUrl_configJs override fallback
          = resolveApiUrl_part000 override fallback) ∧
    configJsFallback ≠ part000Fallback := by
  exact ⟨fun _ _ => rfl, by decide⟩

/-- C9: after load-time initialization, no sequence of the module's
operations changes the module state, so `API_URL` is immutable for the
lifetime of the process. -/
theorem apiUrl_immutable_after_init (env : String → JSValue)
    (fallback : String) (ops : List ModuleOp) :
    runOps (initConfigModule env fallback) ops = initConfigModule env fallback := by
  induction ops with
  | nil => rfl
  | cons op ops ih =>
      cases op with
      | readNamed => simpa [runOps, applyOp] using ih
      | readDefault => simpa [runOps, applyOp] using ih

/-- C10: the resolved value is exactly the fallback literal or exactly
the override string, for every override input. -/
theorem resolved_is_override_or_fallback (override : JSValue)
    (fallback : String) :
    resolveApiUrl override fallback = JSValue.str fallback ∨
    (∃ s : String, override = JSValue.str s ∧
        resolveApiUrl override fallback = JSValue.str s) := by
  cases override with
  | undef => exact Or.inl rfl
  | null => exact Or.inl rfl
  | str s =>
      by_cases hs : s = ""
      · subst hs
        exact Or.inl (by simp [resolveApiUrl, jsOr, truthy, empty_isEmpty])
      · exact Or.inr ⟨s, rfl, by
          simp [resolveApiUrl, jsOr, truthy, isEmpty_false_of_ne s hs]⟩
